import Mathlib

/-!
Verification of the pricing/costing engine of the gaia-puravida repository.

The engine lives in src/lib/types.ts: unit classification and conversion
(getUnitSystem, convertToBaseUnit, convertFromBaseUnit), per-material derived
pricing (getMaterialDerivedValues), per-requirement costing
(getProductMaterialCost) and per-product costing (calculateProductCosts).
The presentation layer (src/app/page.tsx, productsWithDerived) recomputes a
displayed margin from the sale price; that small pure computation is embedded
here as well.

JavaScript numbers are embedded as rationals (ℚ). Every division the source
performs is guarded by a strict positivity test on the divisor, so on the
guarded branches rational arithmetic agrees with the floating-point formulas
symbolically, and the unguarded branches perform no division at all.
Optional object fields are embedded as Option; a TS return object without a
warning key is embedded with warning = none.
-/

namespace Gaia

/-- Embeds src/lib/types.ts: export type Unit = "g" | "kg" | "ml" | "l" | "unit". -/
inductive Unit where
  | g
  | kg
  | ml
  | l
  | unit
deriving DecidableEq, Repr

/-- Embeds src/lib/types.ts: export type UnitSystem = "mass" | "volume" | "unit". -/
inductive UnitSystem where
  | mass
  | volume
  | unit
deriving DecidableEq, Repr

/-- Embeds interface RawMaterialRecord (src/lib/types.ts).  The createdAt and
updatedAt timestamps are opaque Date values never read by the pricing engine
and are omitted. -/
structure RawMaterialRecord where
  id : String
  name : String
  description : Option String := none
  purchasePrice : ℚ
  purchaseQuantity : ℚ
  purchaseUnit : Unit
  salePrice : Option ℚ := none
  supplier : Option String := none
  tags : Option (List String) := none
  notes : Option String := none
  currency : Option String := none
deriving DecidableEq, Repr

/-- Embeds interface ProductMaterialInput (src/lib/types.ts). -/
structure ProductMaterialInput where
  materialId : String
  quantity : ℚ
  unit : Unit
deriving DecidableEq, Repr

/-- Embeds interface ProductRecord (src/lib/types.ts); timestamps omitted as
for RawMaterialRecord. -/
structure ProductRecord where
  id : String
  name : String
  description : Option String := none
  batchSize : ℚ
  batchUnit : String
  materials : List ProductMaterialInput
  laborCost : ℚ
  additionalCost : ℚ
  targetMargin : ℚ
  overrideSalePrice : Option ℚ := none
deriving DecidableEq, Repr

/-- One element of ProductCostResult.breakdown (src/lib/types.ts). -/
structure BreakdownLine where
  materialId : String
  cost : ℚ
  quantity : ℚ
  unit : Unit
  valid : Bool
  warning : Option String
deriving DecidableEq, Repr

/-- Embeds type ProductCostResult (src/lib/types.ts). -/
structure ProductCostResult where
  totalMaterialCost : ℚ
  totalCost : ℚ
  unitCost : ℚ
  recommendedPrice : ℚ
  breakdown : List BreakdownLine
deriving DecidableEq, Repr

/-- Embeds getUnitSystem (src/lib/types.ts lines 77-87): g and kg are mass,
ml and l are volume, everything else is the count system. -/
def getUnitSystem (u : Unit) : UnitSystem :=
  if u = Unit.g ∨ u = Unit.kg then UnitSystem.mass
  else if u = Unit.ml ∨ u = Unit.l then UnitSystem.volume
  else UnitSystem.unit

/-- Embeds convertToBaseUnit (src/lib/types.ts lines 89-99): kg and l scale by
1000, every other unit is returned unchanged. -/
def convertToBaseUnit (quantity : ℚ) (u : Unit) : ℚ :=
  if u = Unit.kg then quantity * 1000
  else if u = Unit.l then quantity * 1000
  else quantity

/-- Embeds convertFromBaseUnit (src/lib/types.ts lines 101-114): kg and l
divide by 1000, every other unit is returned unchanged. -/
def convertFromBaseUnit (baseQuantity : ℚ) (targetUnit : Unit) : ℚ :=
  if targetUnit = Unit.kg then baseQuantity / 1000
  else if targetUnit = Unit.l then baseQuantity / 1000
  else baseQuantity

/-- Return type of getMaterialDerivedValues (src/lib/types.ts lines 139-148);
the TS function returns an anonymous object with exactly these fields. -/
structure DerivedMaterialValues where
  unitSystem : UnitSystem
  baseQuantity : ℚ
  pricePerBaseUnit : ℚ
  pricePerGram : Option ℚ
  pricePerKilogram : Option ℚ
  pricePerMilliliter : Option ℚ
  pricePerLiter : Option ℚ
  pricePerUnit : Option ℚ
deriving DecidableEq, Repr

/-- Embeds getMaterialDerivedValues (src/lib/types.ts lines 116-149). -/
def getMaterialDerivedValues (material : RawMaterialRecord) : DerivedMaterialValues :=
  let unitSystem := getUnitSystem material.purchaseUnit
  let baseQuantity := convertToBaseUnit material.purchaseQuantity material.purchaseUnit
  let pricePerBaseUnit :=
    if baseQuantity > 0 then material.purchasePrice / baseQuantity else 0
  { unitSystem := unitSystem
    baseQuantity := baseQuantity
    pricePerBaseUnit := pricePerBaseUnit
    pricePerGram :=
      if unitSystem = UnitSystem.mass then some pricePerBaseUnit else none
    pricePerKilogram :=
      if unitSystem = UnitSystem.mass then some (pricePerBaseUnit * 1000) else none
    pricePerMilliliter :=
      if unitSystem = UnitSystem.volume then some pricePerBaseUnit else none
    pricePerLiter :=
      if unitSystem = UnitSystem.volume then some (pricePerBaseUnit * 1000) else none
    pricePerUnit :=
      if unitSystem = UnitSystem.unit ∧ material.purchaseQuantity > 0 then
        some (material.purchasePrice / material.purchaseQuantity)
      else none }

/-- Warning string of the material-not-found branch of getProductMaterialCost
(src/lib/types.ts line 159). -/
def warningMaterialNotFound : String := "Materia prima no encontrada"

/-- Warning string of the incompatible-unit branch of getProductMaterialCost
(src/lib/types.ts lines 170-171). -/
def warningIncompatibleUnit : String :=
  "Unidad incompatible. Ajusta la unidad de la materia prima o del producto"

/-- Return type of getProductMaterialCost; the TS function returns an object
with cost, valid and an optional warning. -/
structure MaterialCostResult where
  cost : ℚ
  valid : Bool
  warning : Option String
deriving DecidableEq, Repr

/-- Embeds getProductMaterialCost (src/lib/types.ts lines 151-186). -/
def getProductMaterialCost (material : Option RawMaterialRecord)
    (requirement : ProductMaterialInput) : MaterialCostResult :=
  match material with
  | none =>
      { cost := 0, valid := false, warning := some warningMaterialNotFound }
  | some material =>
      let derived := getMaterialDerivedValues material
      let requirementSystem := getUnitSystem requirement.unit
      if derived.unitSystem ≠ requirementSystem then
        { cost := 0, valid := false, warning := some warningIncompatibleUnit }
      else
        let requirementBaseQuantity :=
          convertToBaseUnit requirement.quantity requirement.unit
        { cost := derived.pricePerBaseUnit * requirementBaseQuantity
          valid := true
          warning := none }

/-- Embeds the lookup new Map(materials.map(item => [item.id, item])) used by
calculateProductCosts (src/lib/types.ts line 192): JS Map insertion is
last-write-wins on duplicate keys, so get returns the last list entry whose id
matches. -/
def materialLookup (materials : List RawMaterialRecord) (materialId : String) :
    Option RawMaterialRecord :=
  (materials.filter (fun item => item.id == materialId)).getLast?

/-- Embeds calculateProductCosts (src/lib/types.ts lines 188-227). -/
def calculateProductCosts (product : ProductRecord)
    (materials : List RawMaterialRecord) : ProductCostResult :=
  let breakdown := product.materials.map (fun item =>
    let material := materialLookup materials item.materialId
    let result := getProductMaterialCost material item
    { materialId := item.materialId
      cost := result.cost
      quantity := item.quantity
      unit := item.unit
      valid := result.valid
      warning := result.warning : BreakdownLine })
  let totalMaterialCost := breakdown.foldl (fun sum item => sum + item.cost) 0
  let totalCost := totalMaterialCost + product.laborCost + product.additionalCost
  let unitCost :=
    if product.batchSize > 0 then totalCost / product.batchSize else totalCost
  let recommendedPrice :=
    if product.targetMargin > 0 then unitCost * (1 + product.targetMargin / 100)
    else unitCost
  { totalMaterialCost := totalMaterialCost
    totalCost := totalCost
    unitCost := unitCost
    recommendedPrice := recommendedPrice
    breakdown := breakdown }

/-- Embeds the salePrice computation of productsWithDerived
(src/app/page.tsx line 441): the override when present, else the recommended
price. -/
def productSalePrice (product : ProductRecord)
    (materials : List RawMaterialRecord) : ℚ :=
  product.overrideSalePrice.getD (calculateProductCosts product materials).recommendedPrice

/-- Embeds the margin computation of productsWithDerived
(src/app/page.tsx lines 442-443): margin-on-price recomputed from the sale
price, 0 when the sale price is not positive. -/
def productMargin (product : ProductRecord)
    (materials : List RawMaterialRecord) : ℚ :=
  let costs := calculateProductCosts product materials
  let salePrice := product.overrideSalePrice.getD costs.recommendedPrice
  if salePrice > 0 then ((salePrice - costs.unitCost) / salePrice) * 100 else 0

/-- Sample material of the spec scenarios: purchased at 1000 for 1 kilogram. -/
def sampleMaterial : RawMaterialRecord :=
  { id := "m1", name := "base oil", purchasePrice := 1000, purchaseQuantity := 1,
    purchaseUnit := Unit.kg }

/-- Sample product of the spec scenarios: 500 grams of sampleMaterial, batch
size 10, labor 200, additional 50, target margin 40. -/
def sampleProduct : ProductRecord :=
  { id := "p1", name := "soap batch", batchSize := 10, batchUnit := "bars",
    materials := [{ materialId := "m1", quantity := 500, unit := Unit.g }],
    laborCost := 200, additionalCost := 50, targetMargin := 40 }

/-- The left fold the source uses to total the breakdown equals the sum of the
cost fields. -/
theorem foldl_add_cost (l : List BreakdownLine) (a : ℚ) :
    l.foldl (fun sum item => sum + item.cost) a = a + (l.map (fun b => b.cost)).sum := by
  induction l generalizing a with
  | nil => simp
  | cons x xs ih => simp [List.foldl, ih, add_assoc]

/-- Every branch of getProductMaterialCost that reports an invalid line prices
it at exactly zero. -/
theorem cost_zero_of_not_valid (material : Option RawMaterialRecord)
    (requirement : ProductMaterialInput)
    (h : (getProductMaterialCost material requirement).valid = false) :
    (getProductMaterialCost material requirement).cost = 0 := by
  cases material with
  | none => simp [getProductMaterialCost]
  | some m =>
      simp only [getProductMaterialCost] at h ⊢
      split_ifs at h ⊢
      rfl

/-- Converting a nonpositive quantity to the base unit keeps it nonpositive:
the conversion only multiplies by 1000 or leaves the quantity alone. -/
theorem convertToBaseUnit_nonpos (q : ℚ) (u : Unit) (hq : q ≤ 0) :
    convertToBaseUnit q u ≤ 0 := by
  cases u <;> simp [convertToBaseUnit] <;> linarith

/-- Claim C1: for a product whose only requirement is 500 grams of a material
purchased at price 1000 for 1 kilogram, with batch size 10, labor cost 200,
additional cost 50 and target margin 40, calculateProductCosts returns
totalMaterialCost 500, totalCost 750, unitCost 75 and recommendedPrice 105,
and getMaterialDerivedValues on that material yields pricePerKilogram 1000
and pricePerGram 1. -/
theorem sample_scenario_costs :
    (calculateProductCosts sampleProduct [sampleMaterial]).totalMaterialCost = 500 ∧
    (calculateProductCosts sampleProduct [sampleMaterial]).totalCost = 750 ∧
    (calculateProductCosts sampleProduct [sampleMaterial]).unitCost = 75 ∧
    (calculateProductCosts sampleProduct [sampleMaterial]).recommendedPrice = 105 ∧
    (getMaterialDerivedValues sampleMaterial).pricePerKilogram = some 1000 ∧
    (getMaterialDerivedValues sampleMaterial).pricePerGram = some 1 := by
  simp only [calculateProductCosts, materialLookup, getProductMaterialCost,
    getMaterialDerivedValues, getUnitSystem, convertToBaseUnit, sampleProduct,
    sampleMaterial, List.filter, List.map, List.foldl, List.getLast?]
  simp
  norm_num

/-- Claim C6: unitCost is totalCost divided by batchSize when batchSize is
positive and totalCost itself otherwise, so a zero batch size degrades to the
total cost instead of dividing by zero. -/
theorem unitCost_batchSize_guard (product : ProductRecord)
    (materials : List RawMaterialRecord) :
    (product.batchSize > 0 →
      (calculateProductCosts product materials).unitCost =
        (calculateProductCosts product materials).totalCost / product.batchSize) ∧
    (product.batchSize ≤ 0 →
      (calculateProductCosts product materials).unitCost =
        (calculateProductCosts product materials).totalCost) := by
  constructor <;> intro h <;> simp only [calculateProductCosts] <;>
    split_ifs with hb <;> first | rfl | linarith

/-- Claim C6 witness: at a concrete product with batch size 0 the unit cost
equals the total cost. -/
theorem unitCost_batchSize_guard_witness :
    ({ sampleProduct with batchSize := 0 } : ProductRecord).batchSize ≤ 0 ∧
    (calculateProductCosts { sampleProduct with batchSize := 0 } []).unitCost =
      (calculateProductCosts { sampleProduct with batchSize := 0 } []).totalCost :=
  ⟨by norm_num [sampleProduct],
   (unitCost_batchSize_guard { sampleProduct with batchSize := 0 } []).2
     (by norm_num [sampleProduct])⟩

/-- Claim C7: the price per base unit of a material is the purchase price
divided by the base-unit purchase quantity when the latter is positive and 0
otherwise; the division is guarded. -/
theorem pricePerBaseUnit_guard (material : RawMaterialRecord) :
    (convertToBaseUnit material.purchaseQuantity material.purchaseUnit > 0 →
      (getMaterialDerivedValues material).pricePerBaseUnit =
        material.purchasePrice /
          convertToBaseUnit material.purchaseQuantity material.purchaseUnit) ∧
    (convertToBaseUnit material.purchaseQuantity material.purchaseUnit ≤ 0 →
      (getMaterialDerivedValues material).pricePerBaseUnit = 0) := by
  constructor <;> intro h <;> simp only [getMaterialDerivedValues] <;>
    split_ifs with hb <;> first | rfl | linarith

/-- Claim C7 witness: at the concrete sample material the guard takes the
division branch, and at a zero-quantity material it yields 0. -/
theorem pricePerBaseUnit_guard_witness :
    convertToBaseUnit sampleMaterial.purchaseQuantity sampleMaterial.purchaseUnit > 0 ∧
    (getMaterialDerivedValues sampleMaterial).pricePerBaseUnit =
      sampleMaterial.purchasePrice /
        convertToBaseUnit sampleMaterial.purchaseQuantity sampleMaterial.purchaseUnit :=
  ⟨by norm_num [sampleMaterial, convertToBaseUnit],
   (pricePerBaseUnit_guard sampleMaterial).1
     (by norm_num [sampleMaterial, convertToBaseUnit])⟩

/-- Claim C9: for kilogram and liter the conversion to the base unit and back
is the identity, and for gram, milliliter and each both conversions are the
identity themselves, so the round trip holds for every unit. -/
theorem unit_conversion_round_trip (q : ℚ) (hq : 0 ≤ q) :
    (∀ u : Unit, (u = Unit.kg ∨ u = Unit.l) →
      convertFromBaseUnit (convertToBaseUnit q u) u = q) ∧
    (∀ u : Unit, (u = Unit.g ∨ u = Unit.ml ∨ u = Unit.unit) →
      convertToBaseUnit q u = q ∧ convertFromBaseUnit q u = q) ∧
    (∀ u : Unit, convertFromBaseUnit (convertToBaseUnit q u) u = q) := by
  refine ⟨?_, ?_, ?_⟩
  · rintro u (rfl | rfl) <;>
      simp [convertToBaseUnit, convertFromBaseUnit, mul_div_assoc]
  · rintro u (rfl | rfl | rfl) <;>
      simp [convertToBaseUnit, convertFromBaseUnit]
  · intro u
    cases u <;>
      simp [convertToBaseUnit, convertFromBaseUnit, mul_div_assoc]

/-- Claim C9 witness: the round trip at the concrete quantity 7 through
kilograms. -/
theorem unit_conversion_round_trip_witness :
    (0:ℚ) ≤ 7 ∧ convertFromBaseUnit (convertToBaseUnit 7 Unit.kg) Unit.kg = 7 :=
  ⟨by norm_num,
   (unit_conversion_round_trip 7 (by norm_num)).1 Unit.kg (Or.inl rfl)⟩

/-- Claim C2: the recommended price is the cost-plus markup
unitCost * (1 + targetMargin / 100) whenever targetMargin is positive and the
unit cost itself otherwise; it is never the margin-on-price value
unitCost / (1 - targetMargin / 100), which is strictly larger whenever the
unit cost is positive and 0 < targetMargin < 100. -/
theorem recommendedPrice_cost_plus_markup (product : ProductRecord)
    (materials : List RawMaterialRecord) :
    (product.targetMargin > 0 →
      (calculateProductCosts product materials).recommendedPrice =
        (calculateProductCosts product materials).unitCost *
          (1 + product.targetMargin / 100)) ∧
    (product.targetMargin ≤ 0 →
      (calculateProductCosts product materials).recommendedPrice =
        (calculateProductCosts product materials).unitCost) ∧
    (product.targetMargin > 0 → product.targetMargin < 100 →
      (calculateProductCosts product materials).unitCost > 0 →
      (calculateProductCosts product materials).recommendedPrice <
        (calculateProductCosts product materials).unitCost /
          (1 - product.targetMargin / 100)) := by
  simp only [calculateProductCosts]
  refine ⟨?_, ?_, ?_⟩
  · intro hm
    rw [if_pos hm]
  · intro hm
    rw [if_neg (not_lt.mpr hm)]
  · intro hm hlt hu
    rw [if_pos hm]
    rw [lt_div_iff (by linarith : (0:ℚ) < 1 - product.targetMargin / 100)]
    nlinarith [mul_pos (mul_pos hu hm) hm]

/-- Claim C2 witness: at the sample product the markup branch fires and gives
the cost-plus price. -/
theorem recommendedPrice_cost_plus_markup_witness :
    (0:ℚ) < sampleProduct.targetMargin ∧
    (calculateProductCosts sampleProduct [sampleMaterial]).recommendedPrice =
      (calculateProductCosts sampleProduct [sampleMaterial]).unitCost *
        (1 + sampleProduct.targetMargin / 100) :=
  ⟨by norm_num [sampleProduct],
   (recommendedPrice_cost_plus_markup sampleProduct [sampleMaterial]).1
     (by norm_num [sampleProduct])⟩

/-- Claim C3: with no override sale price the displayed margin is the
margin-on-price value ((recommendedPrice - unitCost) / recommendedPrice) * 100
when the recommended price is positive and 0 otherwise, and with a positive
target margin and positive recommended price it is strictly below the target
margin used to set the price. -/
theorem productMargin_display (product : ProductRecord)
    (materials : List RawMaterialRecord)
    (hover : product.overrideSalePrice = none) :
    (productMargin product materials =
      if (calculateProductCosts product materials).recommendedPrice > 0 then
        (((calculateProductCosts product materials).recommendedPrice -
            (calculateProductCosts product materials).unitCost) /
          (calculateProductCosts product materials).recommendedPrice) * 100
      else 0) ∧
    (product.targetMargin > 0 →
      (calculateProductCosts product materials).recommendedPrice > 0 →
      productMargin product materials < product.targetMargin) := by
  constructor
  · simp [productMargin, hover]
  · intro hm hp
    have hrp : (calculateProductCosts product materials).recommendedPrice =
        (calculateProductCosts product materials).unitCost *
          (1 + product.targetMargin / 100) := by
      simp only [calculateProductCosts]
      rw [if_pos hm]
    have hu : 0 < (calculateProductCosts product materials).unitCost := by
      by_contra hneg
      push_neg at hneg
      rw [hrp] at hp
      nlinarith
    simp only [productMargin, hover, Option.getD_none]
    rw [if_pos hp, hrp]
    rw [div_mul_eq_mul_div,
      div_lt_iff (by rw [hrp] at hp; exact hp :
        (0:ℚ) < (calculateProductCosts product materials).unitCost *
          (1 + product.targetMargin / 100))]
    nlinarith [mul_pos (mul_pos hu hm) hm]

/-- Claim C3 witness: at the sample product (no override, target margin 40,
recommended price 105) the displayed margin is strictly below 40. -/
theorem productMargin_display_witness :
    sampleProduct.overrideSalePrice = none ∧
    (0:ℚ) < sampleProduct.targetMargin ∧
    (0:ℚ) < (calculateProductCosts sampleProduct [sampleMaterial]).recommendedPrice ∧
    productMargin sampleProduct [sampleMaterial] < sampleProduct.targetMargin :=
  ⟨rfl, by norm_num [sampleProduct],
   by
     simp only [calculateProductCosts, materialLookup, getProductMaterialCost,
       getMaterialDerivedValues, getUnitSystem, convertToBaseUnit,
       sampleProduct, sampleMaterial, List.filter, List.map, List.foldl,
       List.getLast?]
     simp
     norm_num,
   (productMargin_display sampleProduct [sampleMaterial] rfl).2
     (by norm_num [sampleProduct])
     (by
       simp only [calculateProductCosts, materialLookup, getProductMaterialCost,
         getMaterialDerivedValues, getUnitSystem, convertToBaseUnit,
         sampleProduct, sampleMaterial, List.filter, List.map, List.foldl,
         List.getLast?]
       simp
       norm_num)⟩

/-- Claim C4: a requirement is priced invalid with cost 0 and a warning
exactly when the material is absent or its unit system differs from the
that of the requirement; otherwise it is valid with no warning and cost equal to the
price per base unit times the requirement quantity converted to the base
unit, for any quantities.  The embedding is a total function, matching the
never-raises contract. -/
theorem getProductMaterialCost_cases (material : Option RawMaterialRecord)
    (requirement : ProductMaterialInput) :
    (material = none →
      getProductMaterialCost material requirement =
        { cost := 0, valid := false, warning := some warningMaterialNotFound }) ∧
    (∀ m : RawMaterialRecord, material = some m →
      (getMaterialDerivedValues m).unitSystem ≠ getUnitSystem requirement.unit →
      getProductMaterialCost material requirement =
        { cost := 0, valid := false, warning := some warningIncompatibleUnit }) ∧
    (∀ m : RawMaterialRecord, material = some m →
      (getMaterialDerivedValues m).unitSystem = getUnitSystem requirement.unit →
      getProductMaterialCost material requirement =
        { cost := (getMaterialDerivedValues m).pricePerBaseUnit *
            convertToBaseUnit requirement.quantity requirement.unit,
          valid := true, warning := none }) := by
  refine ⟨?_, ?_, ?_⟩
  · rintro rfl
    rfl
  · rintro m rfl hne
    simp only [getProductMaterialCost]
    rw [if_pos hne]
  · rintro m rfl heq
    simp only [getProductMaterialCost]
    rw [if_neg (fun h => h heq)]

/-- Claim C4 witness: the sample material priced against a 500 gram
requirement takes the valid branch with the advertised cost. -/
theorem getProductMaterialCost_cases_witness :
    (getMaterialDerivedValues sampleMaterial).unitSystem =
      getUnitSystem (Gaia.ProductMaterialInput.mk "m1" 500 Unit.g).unit ∧
    getProductMaterialCost (some sampleMaterial)
        (Gaia.ProductMaterialInput.mk "m1" 500 Unit.g) =
      { cost := (getMaterialDerivedValues sampleMaterial).pricePerBaseUnit *
          convertToBaseUnit 500 Unit.g,
        valid := true, warning := none } :=
  ⟨rfl,
   (getProductMaterialCost_cases (some sampleMaterial)
       (Gaia.ProductMaterialInput.mk "m1" 500 Unit.g)).2.2
     sampleMaterial rfl rfl⟩

/-- Claim C5: the total material cost is the sum of the cost fields over the
breakdown, invalid lines cost exactly 0, the total cost is material plus labor
plus additional cost, and the breakdown mirrors product.materials in order. -/
theorem calculateProductCosts_totals (product : ProductRecord)
    (materials : List RawMaterialRecord) :
    ((calculateProductCosts product materials).totalMaterialCost =
      ((calculateProductCosts product materials).breakdown.map
        (fun b => b.cost)).sum) ∧
    ((calculateProductCosts product materials).totalCost =
      (calculateProductCosts product materials).totalMaterialCost +
        product.laborCost + product.additionalCost) ∧
    (∀ b ∈ (calculateProductCosts product materials).breakdown,
      b.valid = false → b.cost = 0) ∧
    ((calculateProductCosts product materials).breakdown.map
        (fun b => (b.materialId, b.quantity, b.unit)) =
      product.materials.map (fun i => (i.materialId, i.quantity, i.unit))) := by
  refine ⟨?_, ?_, ?_, ?_⟩
  · simp only [calculateProductCosts]
    rw [foldl_add_cost, zero_add]
  · rfl
  · intro b hb hbv
    simp only [calculateProductCosts, List.mem_map] at hb
    obtain ⟨i, _, rfl⟩ := hb
    exact cost_zero_of_not_valid _ _ hbv
  · simp [calculateProductCosts, List.map_map, Function.comp]

/-- Claim C5 witness: at a product referencing a material missing from an
empty material list, the invalid breakdown line costs 0 and the totals add
up. -/
theorem calculateProductCosts_totals_witness :
    (calculateProductCosts sampleProduct []).totalCost =
      (calculateProductCosts sampleProduct []).totalMaterialCost +
        sampleProduct.laborCost + sampleProduct.additionalCost ∧
    ((Gaia.BreakdownLine.mk "m1" 0 500 Unit.g false
        (some warningMaterialNotFound)) ∈
      (calculateProductCosts sampleProduct []).breakdown ∧
    (Gaia.BreakdownLine.mk "m1" 0 500 Unit.g false
        (some warningMaterialNotFound)).cost = 0) :=
  ⟨(calculateProductCosts_totals sampleProduct []).2.1,
   by
     simp [calculateProductCosts, materialLookup, getProductMaterialCost,
       sampleProduct, List.filter, List.getLast?],
   (calculateProductCosts_totals sampleProduct []).2.2.1
     (Gaia.BreakdownLine.mk "m1" 0 500 Unit.g false
       (some warningMaterialNotFound))
     (by
       simp [calculateProductCosts, materialLookup, getProductMaterialCost,
         sampleProduct, List.filter, List.getLast?])
     rfl⟩

/-- Claim C10: a material with nonpositive purchase quantity prices every
requirement of its own unit system at cost 0 with valid = true and no
warning: the zero fallback of the price per base unit is silent. -/
theorem nonpositive_quantity_prices_zero (material : RawMaterialRecord)
    (requirement : ProductMaterialInput)
    (hq : material.purchaseQuantity ≤ 0)
    (hsys : getUnitSystem requirement.unit = getUnitSystem material.purchaseUnit) :
    getProductMaterialCost (some material) requirement =
      { cost := 0, valid := true, warning := none } := by
  have hbase : convertToBaseUnit material.purchaseQuantity material.purchaseUnit ≤ 0 :=
    convertToBaseUnit_nonpos _ _ hq
  simp only [getProductMaterialCost, getMaterialDerivedValues]
  rw [if_neg (fun h => h hsys.symm), if_neg (not_lt.mpr hbase)]
  simp

/-- Claim C10 witness: a material of -5 grams purchase quantity prices a
3 gram requirement at cost 0, valid, no warning. -/
theorem nonpositive_quantity_prices_zero_witness :
    (Gaia.RawMaterialRecord.mk "m2" "neg" none 10 (-5) Unit.g none none none
        none none).purchaseQuantity ≤ 0 ∧
    getUnitSystem (Gaia.ProductMaterialInput.mk "m2" 3 Unit.g).unit =
      getUnitSystem (Gaia.RawMaterialRecord.mk "m2" "neg" none 10 (-5) Unit.g
        none none none none none).purchaseUnit ∧
    getProductMaterialCost
        (some (Gaia.RawMaterialRecord.mk "m2" "neg" none 10 (-5) Unit.g none
          none none none none))
        (Gaia.ProductMaterialInput.mk "m2" 3 Unit.g) =
      { cost := 0, valid := true, warning := none } :=
  ⟨by norm_num, rfl,
   nonpositive_quantity_prices_zero
     (Gaia.RawMaterialRecord.mk "m2" "neg" none 10 (-5) Unit.g none none none
       none none)
     (Gaia.ProductMaterialInput.mk "m2" 3 Unit.g)
     (by norm_num) rfl⟩

/-- Claim C8: for every material only the convenience price fields of its own
unit system are populated: a mass material gets price per gram and per
kilogram, a volume material gets price per milliliter and per liter, a count
material gets price per each only when its purchase quantity is positive, and
every field of the other systems is none. -/
theorem derived_fields_by_system (material : RawMaterialRecord) :
    ((getMaterialDerivedValues material).unitSystem = UnitSystem.mass →
      (getMaterialDerivedValues material).pricePerGram =
        some (getMaterialDerivedValues material).pricePerBaseUnit ∧
      (getMaterialDerivedValues material).pricePerKilogram =
        some ((getMaterialDerivedValues material).pricePerBaseUnit * 1000) ∧
      (getMaterialDerivedValues material).pricePerMilliliter = none ∧
      (getMaterialDerivedValues material).pricePerLiter = none ∧
      (getMaterialDerivedValues material).pricePerUnit = none) ∧
    ((getMaterialDerivedValues material).unitSystem = UnitSystem.volume →
      (getMaterialDerivedValues material).pricePerMilliliter =
        some (getMaterialDerivedValues material).pricePerBaseUnit ∧
      (getMaterialDerivedValues material).pricePerLiter =
        some ((getMaterialDerivedValues material).pricePerBaseUnit * 1000) ∧
      (getMaterialDerivedValues material).pricePerGram = none ∧
      (getMaterialDerivedValues material).pricePerKilogram = none ∧
      (getMaterialDerivedValues material).pricePerUnit = none) ∧
    ((getMaterialDerivedValues material).unitSystem = UnitSystem.unit →
      (material.purchaseQuantity > 0 →
        (getMaterialDerivedValues material).pricePerUnit =
          some (material.purchasePrice / material.purchaseQuantity)) ∧
      (material.purchaseQuantity ≤ 0 →
        (getMaterialDerivedValues material).pricePerUnit = none) ∧
      (getMaterialDerivedValues material).pricePerGram = none ∧
      (getMaterialDerivedValues material).pricePerKilogram = none ∧
      (getMaterialDerivedValues material).pricePerMilliliter = none ∧
      (getMaterialDerivedValues material).pricePerLiter = none) := by
  simp only [getMaterialDerivedValues]
  cases hcase : getUnitSystem material.purchaseUnit <;> simp [hcase]

/-- Claim C8 witness: the sample mass material has gram and kilogram prices
and no volume or count price. -/
theorem derived_fields_by_system_witness :
    (getMaterialDerivedValues sampleMaterial).unitSystem = UnitSystem.mass ∧
    ((getMaterialDerivedValues sampleMaterial).pricePerGram =
      some (getMaterialDerivedValues sampleMaterial).pricePerBaseUnit ∧
    (getMaterialDerivedValues sampleMaterial).pricePerKilogram =
      some ((getMaterialDerivedValues sampleMaterial).pricePerBaseUnit * 1000) ∧
    (getMaterialDerivedValues sampleMaterial).pricePerMilliliter = none ∧
    (getMaterialDerivedValues sampleMaterial).pricePerLiter = none ∧
    (getMaterialDerivedValues sampleMaterial).pricePerUnit = none) :=
  ⟨rfl, (derived_fields_by_system sampleMaterial).1 rfl⟩

end Gaia
